import Mathlib

/-!
Shallow embedding of the Intel 8080 emulator core (`cpu.py`) and its I/O
devices (`devices.py`).

Modelling conventions:
* Machine integers are `Nat`.  Python ints are unbounded, so no implicit
  wrapping is added anywhere; every `& 0xff`-style mask of the source is
  translated explicitly.
* Python subtractions that can go negative (`dcr`, `dcx`, `CPI`) are taken
  in `Int`; Python's `x & m` for `m = 2^k - 1` on a possibly negative `x`
  equals `x mod 2^k`, written here as `pymod x (2^k)`.
* Flag fields of the source's `Flags` object hold Python bools *or* ints
  (e.g. RLC stores `h = a & 0x80` into `cy`), so flags are modelled as
  `Nat`, with `True`/`False` stored as `1`/`0` (`b2i`) and Python
  truthiness tested by `truthy`.
* `memory` is a total byte map `Nat → Nat`; the source's `bytearray` is
  only ever indexed in bounds under the spec's stated invariants.
* The module-level I/O bus of the source is outside the `State` object;
  the `IN` instruction reads through an oracle `busRead`, and `OUT` has no
  effect on the processor state (its effect lives in the bus devices,
  modelled separately below from `devices.py`).
* Exceptions escaping `emulate` are modelled by `Except EmuErr`:
  `notImplemented op` is the decode error (its Python message is rendered
  from the opcode alone), `typeError` is the missing-argument call
  `state.mvi('d')` of opcode 0x16, and `nameError` is the unbound `ans`
  read in DAA.
-/

/-- Python truthiness of an int-valued field. -/
def truthy (n : Nat) : Bool := n != 0

/-- A Python bool stored into an int-valued field (`True` = 1, `False` = 0). -/
def b2i (b : Bool) : Nat := if b then 1 else 0

/-- Python `x & (m - 1)` for a power-of-two `m`, valid also for negative `x`:
this is exactly `x mod m`. -/
def pymod (a : Int) (m : Nat) : Nat := (a % (m : Int)).toNat

/-- Source `parity` (cpu.py line 33): `n % 2 == 0`.  Note this tests the
evenness of the value itself, not of its population count. -/
def parity (n : Nat) : Bool := n % 2 == 0

/-- Source `merge_bytes` (cpu.py line 10). -/
def merge_bytes (high low : Nat) : Nat := (high <<< 8) ||| low

/-- Source `extract_bytes` (cpu.py line 22). -/
def extract_bytes (adr : Nat) : Nat × Nat := ((adr >>> 8) &&& 0xff, adr &&& 0xff)

/-- Population count (number of set binary digits); the spec's notion of
parity for claim C1.  Structural fuel recursion (`n` itself bounds the
number of halving steps) keeps the definition kernel-reducible. -/
def popcountAux : Nat → Nat → Nat
  | 0, _ => 0
  | _ + 1, 0 => 0
  | fuel + 1, n => n % 2 + popcountAux fuel (n / 2)

/-- Number of set bits of `n`. -/
def popcount (n : Nat) : Nat := popcountAux n n

/-- Source `Flags` (cpu.py line 38); fields hold Python ints, see header. -/
structure Flags where
  z : Nat
  s : Nat
  p : Nat
  cy : Nat
  ac : Nat
deriving Repr, DecidableEq

/-- Source `Flags.__int__` (cpu.py line 47). -/
def int_of_flags (cc : Flags) : Nat :=
  cc.z ||| (cc.s <<< 1) ||| (cc.p <<< 2) ||| (cc.cy <<< 3) ||| (cc.ac <<< 4)

/-- Source `State.cc` setter (cpu.py lines 232-238). -/
def flags_of_int (val : Nat) : Flags :=
  { z := b2i (0x01 == (val &&& 0x01))
    s := b2i (0x02 == (val &&& 0x02))
    p := b2i (0x04 == (val &&& 0x04))
    cy := b2i (0x08 == (val &&& 0x08))
    ac := b2i (0x10 == (val &&& 0x10)) }

/-- Source `State` (cpu.py line 51). -/
structure State where
  memory : Nat → Nat
  a : Nat
  b : Nat
  c : Nat
  d : Nat
  e : Nat
  h : Nat
  l : Nat
  sp : Nat
  pc : Nat
  int_enable : Nat
  cycles : Nat
  cc : Flags

/-- Write one memory cell (`self.memory[i] = v`). -/
def State.setMem (s : State) (i v : Nat) : State :=
  { s with memory := fun j => if j = i then v else s.memory j }

/-- The register-pair names accepted by the source's string-keyed
accessors (`bc`, `de`, `hl`, `psw`, `sp`, `pc`). -/
inductive PairName where
  | bc | de | hl | psw | sp | pc
deriving Repr, DecidableEq

/-- Derived 16-bit pair read: the `bc`/`de`/`hl`/`psw` properties
(cpu.py lines 240-270) plus plain attribute reads of `sp`/`pc`. -/
def State.getPair (s : State) : PairName → Nat
  | .bc => merge_bytes s.b s.c
  | .de => merge_bytes s.d s.e
  | .hl => merge_bytes s.h s.l
  | .psw => merge_bytes s.a (int_of_flags s.cc)
  | .sp => s.sp
  | .pc => s.pc

/-- Derived 16-bit pair write: the pair setters (cpu.py lines 244-270)
plus plain attribute writes of `sp`/`pc`. -/
def State.setPair (s : State) (reg : PairName) (val : Nat) : State :=
  match reg with
  | .bc => { s with b := (extract_bytes val).1, c := (extract_bytes val).2 }
  | .de => { s with d := (extract_bytes val).1, e := (extract_bytes val).2 }
  | .hl => { s with h := (extract_bytes val).1, l := (extract_bytes val).2 }
  | .psw => { s with a := (extract_bytes val).1, cc := flags_of_int (extract_bytes val).2 }
  | .sp => { s with sp := val }
  | .pc => { s with pc := val }

/-- Shorthand used all over the source: `self.hl`. -/
def State.hl16 (s : State) : Nat := merge_bytes s.h s.l

/-- The 8-bit operand names of the source's string-keyed register ops;
`m8` is the pseudo-register `'m'`, the memory cell addressed by HL. -/
inductive Reg8 where
  | a8 | b8 | c8 | d8 | e8 | h8 | l8 | m8
deriving Repr, DecidableEq

/-- Read an 8-bit operand (`getattr(self, reg)`, or `self.memory[self.hl]`
for `'m'`). -/
def State.getReg8 (s : State) : Reg8 → Nat
  | .a8 => s.a
  | .b8 => s.b
  | .c8 => s.c
  | .d8 => s.d
  | .e8 => s.e
  | .h8 => s.h
  | .l8 => s.l
  | .m8 => s.memory s.hl16

/-- Write an 8-bit operand (`setattr(self, reg, v)`, or
`self.memory[self.hl] = v` for `'m'`). -/
def State.setReg8 (s : State) (reg : Reg8) (v : Nat) : State :=
  match reg with
  | .a8 => { s with a := v }
  | .b8 => { s with b := v }
  | .c8 => { s with c := v }
  | .d8 => { s with d := v }
  | .e8 => { s with e := v }
  | .h8 => { s with h := v }
  | .l8 => { s with l := v }
  | .m8 => s.setMem s.hl16 v

/-- Source `State.calc_flags` (cpu.py lines 68-73).  `ans` is an `Int`
because `dcr`/`dcx` pass a possibly negative value; `ans & mask` is
`pymod ans (mask+1)` and `ans & (mask - (mask >> 1))` extracts the top
bit of the low `mask+1` range, which only depends on `ans mod (mask+1)`. -/
def calc_flags (cc : Flags) (ans : Int) (single : Bool := true) : Flags :=
  let mask : Nat := if single then 0xff else 0xffff
  { cc with
    z := b2i (pymod ans (mask + 1) == 0)
    s := b2i (pymod ans (mask + 1) &&& (mask - (mask >>> 1)) != 0)
    cy := b2i (decide (ans > (mask : Int)))
    p := b2i (parity (pymod ans (mask + 1))) }

/-- Source `State.nop` (cpu.py line 75). -/
def State.nop (s : State) : State := { s with cycles := s.cycles + 4 }

/-- Source `State.push` (cpu.py lines 78-89): high byte at `sp-1`, low
byte at `sp-2`, then `sp -= 2`.  The assert admits `bc de hl psw pc`. -/
def State.push (s : State) (reg : PairName) : State :=
  let hl2 := extract_bytes (s.getPair reg)
  let t := (s.setMem (s.sp - 1) hl2.1).setMem (s.sp - 2) hl2.2
  { t with sp := t.sp - 2, cycles := t.cycles + 11 }

/-- Source `State.pop` (cpu.py lines 91-102): low byte from `sp`, high
byte from `sp+1`, then `sp += 2`.  The assert admits `bc de hl psw`. -/
def State.pop (s : State) (reg : PairName) : State :=
  let t := s.setPair reg (merge_bytes (s.memory (s.sp + 1)) (s.memory s.sp))
  { t with sp := t.sp + 2, cycles := t.cycles + 10 }

/-- Source `State.lxi` (cpu.py lines 104-117). -/
def State.lxi (s : State) (reg : PairName) (high low : Nat) : State :=
  let t := s.setPair reg (merge_bytes high low)
  { t with pc := t.pc + 2, cycles := t.cycles + 10 }

/-- Source `State.dcr` (cpu.py lines 119-140).  `ans` may be `-1` in
Python, hence `Int`; the stored `ans & 0xff` is `pymod ans 256`. -/
def State.dcr (s : State) (reg : Reg8) : State :=
  let ans : Int := (if reg = .m8 then (s.memory s.hl16 : Int) else (s.getReg8 reg : Int)) - 1
  let t := { s with cc := calc_flags s.cc ans }
  if reg = .m8 then
    let u := t.setMem t.hl16 (pymod ans 256)
    { u with cycles := u.cycles + 10 }
  else
    let u := t.setReg8 reg (pymod ans 256)
    { u with cycles := u.cycles + 5 }

/-- Source `State.mvi` (cpu.py lines 142-149). -/
def State.mvi (s : State) (reg : Reg8) (val : Nat) : State :=
  let t :=
    if reg = .m8 then
      let u := s.setMem s.hl16 val
      { u with cycles := u.cycles + 10 }
    else
      let u := s.setReg8 reg val
      { u with cycles := u.cycles + 7 }
  { t with pc := t.pc + 1 }

/-- Source `State.dad` (cpu.py lines 151-155): the `hl` setter then
truncates each byte. -/
def State.dad (s : State) (reg : PairName) : State :=
  let ans := s.hl16 + s.getPair reg
  let t := { s with cc := { s.cc with cy := b2i (decide (ans > 0xffff)) } }
  let u := t.setPair .hl ans
  { u with cycles := u.cycles + 10 }

/-- Source `State.inx` (cpu.py lines 157-161). -/
def State.inx (s : State) (reg : PairName) : State :=
  let ans : Int := (s.getPair reg : Int) + 1
  let t := { s with cc := calc_flags s.cc ans false }
  let u := t.setPair reg (pymod ans 65536)
  { u with cycles := u.cycles + 5 }

/-- Source `State.dcx` (cpu.py lines 163-167): `ans` may be `-1`. -/
def State.dcx (s : State) (reg : PairName) : State :=
  let ans : Int := (s.getPair reg : Int) - 1
  let t := { s with cc := calc_flags s.cc ans false }
  let u := t.setPair reg (pymod ans 65536)
  { u with cycles := u.cycles + 5 }

/-- Source `State.inr` (cpu.py lines 169-173).  The dispatcher only ever
passes plain register names here (`getattr` has no `m` attribute); the
`m8` case of `getReg8`/`setReg8` is unreachable from `dispatch`. -/
def State.inr (s : State) (reg : Reg8) : State :=
  let ans : Int := (s.getReg8 reg : Int) + 1
  let t := { s with cc := calc_flags s.cc ans }
  let u := t.setReg8 reg (pymod ans 256)
  { u with cycles := u.cycles + 5 }

/-- Source `State.add` (cpu.py lines 175-183). -/
def State.add (s : State) (reg : Reg8) : State :=
  let ansAndS :=
    if reg = .m8 then (s.a + s.memory s.hl16, { s with cycles := s.cycles + 7 })
    else (s.a + s.getReg8 reg, { s with cycles := s.cycles + 4 })
  let ans := ansAndS.1
  let t := { ansAndS.2 with cc := calc_flags ansAndS.2.cc (ans : Int) }
  { t with a := ans &&& 0xff }

/-- Source `State.ana` (cpu.py lines 185-194). -/
def State.ana (s : State) (reg : Reg8) : State :=
  let ansAndS :=
    if reg = .m8 then (s.a &&& s.memory s.hl16, { s with cycles := s.cycles + 7 })
    else (s.a &&& s.getReg8 reg, { s with cycles := s.cycles + 4 })
  let ans := ansAndS.1
  let t := { ansAndS.2 with cc := calc_flags ansAndS.2.cc (ans : Int) }
  { t with a := ans &&& 0xff }

/-- Source `State.ora` (cpu.py lines 196-205). -/
def State.ora (s : State) (reg : Reg8) : State :=
  let ansAndS :=
    if reg = .m8 then (s.a ||| s.memory s.hl16, { s with cycles := s.cycles + 7 })
    else (s.a ||| s.getReg8 reg, { s with cycles := s.cycles + 4 })
  let ans := ansAndS.1
  let t := { ansAndS.2 with cc := calc_flags ansAndS.2.cc (ans : Int) }
  { t with a := ans &&& 0xff }

/-- Source `State.xra` (cpu.py lines 207-216). -/
def State.xra (s : State) (reg : Reg8) : State :=
  let ansAndS :=
    if reg = .m8 then (s.a ^^^ s.memory s.hl16, { s with cycles := s.cycles + 7 })
    else (s.a ^^^ s.getReg8 reg, { s with cycles := s.cycles + 4 })
  let ans := ansAndS.1
  let t := { ansAndS.2 with cc := calc_flags ansAndS.2.cc (ans : Int) }
  { t with a := ans &&& 0xff }

/-- Source `State.stax` (cpu.py lines 218-220). -/
def State.stax (s : State) (reg : PairName) : State :=
  let t := s.setMem (s.getPair reg) s.a
  { t with cycles := t.cycles + 7 }

/-- Source `State.rst` (cpu.py lines 222-226). -/
def State.rst (s : State) (i : Nat) : State :=
  let t := { s with int_enable := 0 }
  let u := t.push .pc
  let v := { u with pc := 8 * i }
  { v with cycles := v.cycles + 11 }

/-- The exceptions that can escape the source's `emulate`:
`notImplemented op` is `NotImplementedError("opcode %02x is not implemented" % opcode)`
(rendered from the opcode alone), `typeError` is the missing-argument call
`state.mvi('d')` under opcode 0x16, `nameError` is DAA reading its unbound
`ans` local. -/
inductive EmuErr where
  | notImplemented (opcode : Nat)
  | typeError
  | nameError
deriving Repr, DecidableEq

/-- The generic trailer `state.pc += 1` at the end of `emulate`
(cpu.py line 764), applied to every branch that does not `return`. -/
def trailer (s : State) : Except EmuErr State := .ok { s with pc := s.pc + 1 }

/-- RLC (cpu.py lines 339-344): note `state.a = (state.a << 1) | h`
carries no `& 0xff` mask, and `cy` receives the raw int `h` (0 or 0x80). -/
def opRLC (s : State) : Except EmuErr State :=
  let hbit := s.a &&& 0x80
  let t := { s with cc := { s.cc with cy := hbit } }
  let u := { t with a := (t.a <<< 1) ||| hbit }
  trailer { u with cycles := u.cycles + 4 }

/-- RRC (cpu.py lines 364-369). -/
def opRRC (s : State) : Except EmuErr State :=
  let x := s.a
  let t := { s with a := ((x &&& 1) <<< 7) ||| (x >>> 1) }
  let u := { t with cc := { t.cc with cy := b2i ((x &&& 1) == 1) } }
  trailer { u with cycles := u.cycles + 4 }

/-- RAL (cpu.py lines 388-393): `state.a = (x << 1) | state.cc.cy` is
unmasked, and the new carry `(x & 0x80) == 1` is always False. -/
def opRAL (s : State) : Except EmuErr State :=
  let x := s.a
  let t := { s with a := (x <<< 1) ||| s.cc.cy }
  let u := { t with cc := { t.cc with cy := b2i ((x &&& 0x80) == 1) } }
  trailer { u with cycles := u.cycles + 4 }

/-- RAR (cpu.py lines 413-418). -/
def opRAR (s : State) : Except EmuErr State :=
  let x := s.a
  let t := { s with a := (s.cc.cy <<< 7) ||| (x >>> 1) }
  let u := { t with cc := { t.cc with cy := b2i ((x &&& 1) == 1) } }
  trailer { u with cycles := u.cycles + 4 }

/-- SHLD adr (cpu.py lines 422-428). -/
def opSHLD (s : State) (arg1 arg2 : Nat) : Except EmuErr State :=
  let adr := merge_bytes arg2 arg1
  let t := (s.setMem adr s.l).setMem (adr + 1) s.h
  trailer { t with cycles := t.cycles + 16, pc := t.pc + 2 }

/-- DAA (cpu.py lines 441-455): `ans` is assigned only inside the
`hsb > 9 or cy` branch, yet read unconditionally afterwards; the other
path raises NameError at `if ans > 0xff`. -/
def opDAA (s : State) : Except EmuErr State :=
  let lsb := s.a &&& 0x0f
  let t := if lsb > 9 ∨ truthy s.cc.ac then { s with a := s.a ||| 0x06 } else s
  let t := { t with cc := { t.cc with ac := b2i (decide (lsb + 6 > 0x0f)) } }
  let hsb := t.a >>> 4
  if hsb > 9 ∨ truthy t.cc.cy then
    let ans := (t.a ||| 0x60) &&& 0xff
    let u := if ans > 0xff then { t with cc := { t.cc with cy := 1 } } else t
    let u := { u with cc := { u.cc with p := b2i (parity ans) } }
    let u := { u with cc := { u.cc with z := b2i (ans == 0) } }
    let u := { u with cc := { u.cc with s := b2i ((ans &&& 0x80) != 0) } }
    trailer { u with cycles := u.cycles + 4 }
  else .error .nameError

/-- STA adr (cpu.py lines 470-475). -/
def opSTA (s : State) (arg1 arg2 : Nat) : Except EmuErr State :=
  let adr := merge_bytes arg2 arg1
  let t := s.setMem adr s.a
  trailer { t with pc := t.pc + 2, cycles := t.cycles + 13 }

/-- LDA adr (cpu.py lines 486-491). -/
def opLDA (s : State) (arg1 arg2 : Nat) : Except EmuErr State :=
  let adr := merge_bytes arg2 arg1
  trailer { s with a := s.memory adr, pc := s.pc + 2, cycles := s.cycles + 13 }

/-- JNZ adr (cpu.py lines 601-608): the taken branch `return`s, the
untaken one falls through to the generic trailer. -/
def opJNZ (s : State) (arg1 arg2 : Nat) : Except EmuErr State :=
  let t := { s with cycles := s.cycles + 10 }
  if t.cc.z = 0 then .ok { t with pc := merge_bytes arg2 arg1 }
  else trailer { t with pc := t.pc + 2 }

/-- JMP adr (cpu.py lines 609-613). -/
def opJMP (s : State) (arg1 arg2 : Nat) : Except EmuErr State :=
  .ok { s with pc := merge_bytes arg2 arg1, cycles := s.cycles + 10 }

/-- ADI byte (cpu.py lines 617-626). -/
def opADI (s : State) (arg1 : Nat) : Except EmuErr State :=
  let ans := s.a + arg1
  let t := { s with cc :=
    { z := b2i ((ans &&& 0xff) == 0)
      s := b2i ((ans &&& 0x80) != 0)
      cy := b2i (decide (ans > 0xff))
      p := b2i (parity (ans &&& 0xff))
      ac := s.cc.ac } }
  trailer { t with a := ans &&& 0xff, pc := t.pc + 1, cycles := t.cycles + 7 }

/-- RZ (cpu.py lines 627-635). -/
def opRZ (s : State) : Except EmuErr State :=
  if truthy s.cc.z then
    .ok { s with pc := merge_bytes (s.memory (s.sp + 1)) (s.memory s.sp),
                 sp := s.sp + 2, cycles := s.cycles + 11 }
  else trailer { s with cycles := s.cycles + 5 }

/-- RET (cpu.py lines 636-643). -/
def opRET (s : State) : Except EmuErr State :=
  .ok { s with pc := merge_bytes (s.memory (s.sp + 1)) (s.memory s.sp),
               sp := s.sp + 2, cycles := s.cycles + 10 }

/-- JZ adr (cpu.py lines 644-651). -/
def opJZ (s : State) (arg1 arg2 : Nat) : Except EmuErr State :=
  let t := { s with cycles := s.cycles + 10 }
  if truthy t.cc.z then .ok { t with pc := merge_bytes arg2 arg1 }
  else trailer { t with pc := t.pc + 2 }

/-- CALL adr (cpu.py lines 652-663). -/
def opCALL (s : State) (arg1 arg2 : Nat) : Except EmuErr State :=
  let ret := s.pc + 3
  let hilo := extract_bytes ret
  let t := (s.setMem (s.sp - 1) hilo.1).setMem (s.sp - 2) hilo.2
  .ok { t with sp := t.sp - 2, pc := merge_bytes arg2 arg1, cycles := t.cycles + 17 }

/-- JNC adr (cpu.py lines 671-678). -/
def opJNC (s : State) (arg1 arg2 : Nat) : Except EmuErr State :=
  let t := { s with cycles := s.cycles + 10 }
  if t.cc.cy = 0 then .ok { t with pc := merge_bytes arg2 arg1 }
  else trailer { t with pc := t.pc + 2 }

/-- RC (cpu.py lines 691-699). -/
def opRC (s : State) : Except EmuErr State :=
  if truthy s.cc.cy then
    .ok { s with cycles := s.cycles + 11,
                 pc := merge_bytes (s.memory (s.sp + 1)) (s.memory s.sp),
                 sp := s.sp + 2 }
  else trailer { s with cycles := s.cycles + 5 }

/-- JC adr (cpu.py lines 700-707). -/
def opJC (s : State) (arg1 arg2 : Nat) : Except EmuErr State :=
  let t := { s with cycles := s.cycles + 10 }
  if truthy t.cc.cy then .ok { t with pc := merge_bytes arg2 arg1 }
  else trailer { t with pc := t.pc + 2 }

/-- XTHL (cpu.py lines 716-720): two simultaneous swap assignments. -/
def opXTHL (s : State) : Except EmuErr State :=
  let t := { s.setMem s.sp s.l with l := s.memory s.sp }
  let u := { t.setMem (t.sp + 1) t.h with h := t.memory (t.sp + 1) }
  trailer { u with cycles := u.cycles + 18 }

/-- ANI byte (cpu.py lines 724-733). -/
def opANI (s : State) (arg1 : Nat) : Except EmuErr State :=
  let x := s.a &&& arg1
  let t := { s with cc :=
    { z := b2i ((x &&& 0xff) == 0)
      s := b2i ((x &&& 0x80) != 0)
      cy := 0
      p := b2i (parity (x &&& 0xff))
      ac := s.cc.ac } }
  trailer { t with a := x, pc := t.pc + 1, cycles := t.cycles + 7 }

/-- XCHG (cpu.py lines 738-741). -/
def opXCHG (s : State) : Except EmuErr State :=
  let dv := s.getPair .de
  let hv := s.getPair .hl
  trailer { ((s.setPair .hl dv).setPair .de hv) with cycles := s.cycles + 5 }

/-- CPI D8 (cpu.py lines 752-760): `x = a - arg1` may be negative. -/
def opCPI (s : State) (arg1 : Nat) : Except EmuErr State :=
  let x : Int := (s.a : Int) - (arg1 : Int)
  let t := { s with cc :=
    { z := b2i (pymod x 256 == 0)
      s := b2i (pymod x 256 &&& 0x80 != 0)
      p := b2i (parity (pymod x 256))
      cy := b2i (decide (s.a < arg1))
      ac := s.cc.ac } }
  trailer { t with pc := t.pc + 1, cycles := t.cycles + 7 }

/-- Source `emulate` (cpu.py lines 305-764) with the opcode and operand
bytes already fetched: the full decode/execute `elif` chain.  Branches
that `return` in the source produce `.ok` directly, all others fall
through to `trailer`.  Branch bodies that are more than one method call
are split into the named `op...` handlers above, one per source branch. -/
def dispatch (busRead : Nat → Nat) (s : State) (opcode arg1 arg2 : Nat) :
    Except EmuErr State :=
  if opcode = 0x00 then trailer s.nop
  else if opcode = 0x01 then trailer (s.lxi .bc arg2 arg1)
  else if opcode = 0x02 then trailer (s.stax .bc)
  else if opcode = 0x03 then trailer (s.inx .bc)
  else if opcode = 0x04 then trailer (s.inr .b8)
  else if opcode = 0x05 then trailer (s.dcr .b8)
  else if opcode = 0x06 then trailer (s.mvi .b8 arg1)
  else if opcode = 0x07 then opRLC s
  else if opcode = 0x09 then trailer (s.dad .bc)
  else if opcode = 0x0a then trailer { s with a := s.memory (s.getPair .bc), cycles := s.cycles + 7 }
  else if opcode = 0x0b then trailer (s.dcx .bc)
  else if opcode = 0x0c then trailer (s.inr .c8)
  else if opcode = 0x0d then trailer (s.dcr .c8)
  else if opcode = 0x0e then trailer (s.mvi .c8 arg1)
  else if opcode = 0x0f then opRRC s
  else if opcode = 0x11 then trailer (s.lxi .de arg2 arg1)
  else if opcode = 0x12 then trailer (s.stax .de)
  else if opcode = 0x13 then trailer (s.inx .de)
  else if opcode = 0x14 then trailer (s.inr .d8)
  else if opcode = 0x15 then trailer (s.dcr .d8)
  else if opcode = 0x16 then
    -- MVI D, D8: the source calls `state.mvi('d')` without the immediate,
    -- raising TypeError before any state change.
    .error .typeError
  else if opcode = 0x17 then opRAL s
  else if opcode = 0x19 then trailer (s.dad .de)
  else if opcode = 0x1a then trailer { s with a := s.memory (s.getPair .de), cycles := s.cycles + 7 }
  else if opcode = 0x1b then trailer (s.dcx .de)
  else if opcode = 0x1c then trailer (s.inr .e8)
  else if opcode = 0x1d then trailer (s.dcr .e8)
  else if opcode = 0x1e then trailer (s.mvi .e8 arg1)
  else if opcode = 0x1f then opRAR s
  else if opcode = 0x21 then trailer (s.lxi .hl arg2 arg1)
  else if opcode = 0x22 then opSHLD s arg1 arg2
  else if opcode = 0x23 then trailer (s.inx .hl)
  else if opcode = 0x24 then trailer (s.inr .h8)
  else if opcode = 0x25 then trailer (s.dcr .h8)
  else if opcode = 0x26 then trailer (s.mvi .h8 arg1)
  else if opcode = 0x27 then opDAA s
  else if opcode = 0x29 then trailer (s.dad .hl)
  else if opcode = 0x2e then trailer (s.mvi .l8 arg1)
  else if opcode = 0x2f then trailer { s with a := s.a ^^^ 0xff, cycles := s.cycles + 4 }
  else if opcode = 0x31 then trailer (s.lxi .sp arg2 arg1)
  else if opcode = 0x32 then opSTA s arg1 arg2
  else if opcode = 0x35 then trailer (s.dcr .m8)
  else if opcode = 0x36 then trailer (s.mvi .m8 arg1)
  else if opcode = 0x37 then trailer { s with cc := { s.cc with cy := 1 }, cycles := s.cycles + 4 }
  else if opcode = 0x3a then opLDA s arg1 arg2
  else if opcode = 0x3d then trailer (s.dcr .a8)
  else if opcode = 0x3e then trailer (s.mvi .a8 arg1)
  else if opcode = 0x41 then trailer { s with b := s.c, cycles := s.cycles + 5 }
  else if opcode = 0x42 then trailer { s with b := s.d, cycles := s.cycles + 5 }
  else if opcode = 0x43 then trailer { s with b := s.e, cycles := s.cycles + 5 }
  else if opcode = 0x46 then trailer { s with b := s.memory s.hl16, cycles := s.cycles + 7 }
  else if opcode = 0x4f then trailer { s with c := s.a, cycles := s.cycles + 5 }
  else if opcode = 0x56 then trailer { s with d := s.memory s.hl16, cycles := s.cycles + 7 }
  else if opcode = 0x57 then trailer { s with d := s.a, cycles := s.cycles + 5 }
  else if opcode = 0x5e then trailer { s with e := s.memory s.hl16, cycles := s.cycles + 7 }
  else if opcode = 0x5f then trailer { s with e := s.a, cycles := s.cycles + 5 }
  else if opcode = 0x66 then trailer { s with h := s.memory s.hl16, cycles := s.cycles + 7 }
  else if opcode = 0x67 then trailer { s with h := s.a, cycles := s.cycles + 5 }
  else if opcode = 0x6f then trailer { s with l := s.a, cycles := s.cycles + 5 }
  else if opcode = 0x77 then
    let t := s.setMem s.hl16 s.a
    trailer { t with cycles := t.cycles + 7 }
  else if opcode = 0x79 then trailer { s with a := s.c, cycles := s.cycles + 5 }
  else if opcode = 0x7a then trailer { s with a := s.d, cycles := s.cycles + 5 }
  else if opcode = 0x7b then trailer { s with a := s.e, cycles := s.cycles + 5 }
  else if opcode = 0x7c then trailer { s with a := s.h, cycles := s.cycles + 5 }
  else if opcode = 0x7d then trailer { s with a := s.l, cycles := s.cycles + 5 }
  else if opcode = 0x7e then trailer { s with a := s.memory s.hl16, cycles := s.cycles + 7 }
  else if opcode = 0x80 then trailer (s.add .b8)
  else if opcode = 0x81 then trailer (s.add .c8)
  else if opcode = 0x86 then trailer (s.add .m8)
  else if opcode = 0xa7 then trailer (s.ana .a8)
  else if opcode = 0xaf then trailer (s.xra .a8)
  else if opcode = 0xb0 then trailer (s.ora .b8)
  else if opcode = 0xb3 then trailer (s.ora .e8)
  else if opcode = 0xb6 then trailer (s.ora .m8)
  else if opcode = 0xc1 then trailer (s.pop .bc)
  else if opcode = 0xc2 then opJNZ s arg1 arg2
  else if opcode = 0xc3 then opJMP s arg1 arg2
  else if opcode = 0xc5 then trailer (s.push .bc)
  else if opcode = 0xc6 then opADI s arg1
  else if opcode = 0xc8 then opRZ s
  else if opcode = 0xc9 then opRET s
  else if opcode = 0xca then opJZ s arg1 arg2
  else if opcode = 0xcd then opCALL s arg1 arg2
  else if opcode = 0xcf then .ok (s.rst 1)
  else if opcode = 0xd1 then trailer (s.pop .de)
  else if opcode = 0xd2 then opJNC s arg1 arg2
  else if opcode = 0xd3 then
    -- OUT byte: `bus.write(arg1, state.a)` acts on the module-level bus,
    -- not on the processor state.
    trailer { s with pc := s.pc + 1, cycles := s.cycles + 10 }
  else if opcode = 0xd5 then trailer (s.push .de)
  else if opcode = 0xd7 then .ok (s.rst 2)
  else if opcode = 0xd8 then opRC s
  else if opcode = 0xda then opJC s arg1 arg2
  else if opcode = 0xdb then
    -- IN byte
    trailer { s with a := busRead arg1, pc := s.pc + 1, cycles := s.cycles + 10 }
  else if opcode = 0xe1 then trailer (s.pop .hl)
  else if opcode = 0xe3 then opXTHL s
  else if opcode = 0xe5 then trailer (s.push .hl)
  else if opcode = 0xe6 then opANI s arg1
  else if opcode = 0xe9 then
    -- PCHL: the source does not `return` here, so the generic trailer
    -- still adds 1 to the freshly written pc.
    trailer { s with pc := s.hl16, cycles := s.cycles + 5 }
  else if opcode = 0xeb then opXCHG s
  else if opcode = 0xf1 then trailer (s.pop .psw)
  else if opcode = 0xf5 then trailer (s.push .psw)
  else if opcode = 0xfb then trailer { s with int_enable := 1, cycles := s.cycles + 4 }
  else if opcode = 0xfe then opCPI s arg1
  else .error (.notImplemented opcode)

/-- One dispatch step of the execution loop: fetch
`opcode, arg1, arg2 = state.memory[state.pc:state.pc+3]` and decode/execute
(cpu.py lines 305-764, `debug = 0`, `opcode = None`). -/
def emulate (busRead : Nat → Nat) (s : State) : Except EmuErr State :=
  dispatch busRead s (s.memory s.pc) (s.memory (s.pc + 1)) (s.memory (s.pc + 2))

/-- Every opcode byte carrying a branch in the source's `elif` chain
(0x16 included: it is mapped, though its handler call is broken). -/
def implementedOpcodes : List Nat :=
  [0x00, 0x01, 0x02, 0x03, 0x04, 0x05, 0x06, 0x07, 0x09, 0x0a, 0x0b, 0x0c,
   0x0d, 0x0e, 0x0f, 0x11, 0x12, 0x13, 0x14, 0x15, 0x16, 0x17, 0x19, 0x1a,
   0x1b, 0x1c, 0x1d, 0x1e, 0x1f, 0x21, 0x22, 0x23, 0x24, 0x25, 0x26, 0x27,
   0x29, 0x2e, 0x2f, 0x31, 0x32, 0x35, 0x36, 0x37, 0x3a, 0x3d, 0x3e, 0x41,
   0x42, 0x43, 0x46, 0x4f, 0x56, 0x57, 0x5e, 0x5f, 0x66, 0x67, 0x6f, 0x77,
   0x79, 0x7a, 0x7b, 0x7c, 0x7d, 0x7e, 0x80, 0x81, 0x86, 0xa7, 0xaf, 0xb0,
   0xb3, 0xb6, 0xc1, 0xc2, 0xc3, 0xc5, 0xc6, 0xc8, 0xc9, 0xca, 0xcd, 0xcf,
   0xd1, 0xd2, 0xd3, 0xd5, 0xd7, 0xd8, 0xda, 0xdb, 0xe1, 0xe3, 0xe5, 0xe6,
   0xe9, 0xeb, 0xf1, 0xf5, 0xfb, 0xfe]

/-- Source `ShiftRegister` (devices.py lines 1-14). -/
structure ShiftRegister where
  register : Nat
  offset : Nat
deriving Repr, DecidableEq

/-- Source `ShiftRegister.get_register` (devices.py lines 7-8). -/
def ShiftRegister.get_register (sr : ShiftRegister) : Nat :=
  (sr.register >>> sr.offset) &&& 0xff

/-- Source `ShiftRegister.shift` (devices.py lines 10-11): note the
inserted byte is shifted left by 7, not 8. -/
def ShiftRegister.shift (sr : ShiftRegister) (val : Nat) : ShiftRegister :=
  { sr with register := (sr.register >>> 8) ||| (val <<< 7) }

/-- Source `ShiftRegister.set_offset` (devices.py lines 13-14). -/
def ShiftRegister.set_offset (sr : ShiftRegister) (val : Nat) : ShiftRegister :=
  { sr with offset := (val ^^^ 0xff) &&& 0x07 }

/-- Source `Controller` (devices.py lines 17-58), two bitmask registers. -/
structure Controller where
  p1_reg : Nat
  p2_reg : Nat
deriving Repr, DecidableEq

/-- Source `Controller.get_p1`. -/
def Controller.get_p1 (c : Controller) : Nat := c.p1_reg

/-- Source `Controller.get_p2`. -/
def Controller.get_p2 (c : Controller) : Nat := c.p2_reg

/-- Source `Controller.start_p1`: `self._p1_reg |= 0x04`. -/
def Controller.start_p1 (c : Controller) : Controller :=
  { c with p1_reg := c.p1_reg ||| 0x04 }

/-- Source `Controller.start_p2`: `self._p1_reg |= 0x02` — it writes the
player-1 register. -/
def Controller.start_p2 (c : Controller) : Controller :=
  { c with p1_reg := c.p1_reg ||| 0x02 }

/-- Source `Controller.mv_left_p1`. -/
def Controller.mv_left_p1 (c : Controller) : Controller :=
  { c with p1_reg := c.p1_reg ||| 0x20 }

/-- Source `Controller.mv_left_p2`. -/
def Controller.mv_left_p2 (c : Controller) : Controller :=
  { c with p2_reg := c.p2_reg ||| 0x20 }

/-- Source `Controller.mv_right_p1`. -/
def Controller.mv_right_p1 (c : Controller) : Controller :=
  { c with p1_reg := c.p1_reg ||| 0x40 }

/-- Source `Controller.mv_right_p2`. -/
def Controller.mv_right_p2 (c : Controller) : Controller :=
  { c with p2_reg := c.p2_reg ||| 0x40 }

/-- Source `Controller.shoot_p1`. -/
def Controller.shoot_p1 (c : Controller) : Controller :=
  { c with p1_reg := c.p1_reg ||| 0x10 }

/-- Source `Controller.shoot_p2`. -/
def Controller.shoot_p2 (c : Controller) : Controller :=
  { c with p2_reg := c.p2_reg ||| 0x10 }

/-- Source `Controller.add_credit`. -/
def Controller.add_credit (c : Controller) : Controller :=
  { c with p1_reg := c.p1_reg ||| 0x01 }

/-- `merge_bytes` is place-value composition once the low byte fits. -/
theorem merge_bytes_eq (hi lo : Nat) (h : lo < 256) : merge_bytes hi lo = 256 * hi + lo := by
  have h2 : lo < 2 ^ 8 := h
  calc merge_bytes hi lo = (hi <<< 8) ||| lo := rfl
    _ = (2 ^ 8 * hi) ||| lo := by rw [Nat.shiftLeft_eq, Nat.mul_comm]
    _ = 2 ^ 8 * hi + lo := (Nat.mul_add_lt_is_or h2 hi).symm
    _ = 256 * hi + lo := by norm_num

/-- `x & 0xff` is `x mod 256`. -/
theorem and_255_eq_mod (x : Nat) : x &&& 0xff = x % 256 := by
  have h := Nat.and_pow_two_sub_one_eq_mod x 8
  norm_num at h
  exact h

/-- `x >> 8` is division by 256. -/
theorem shiftRight_8_eq_div (x : Nat) : x >>> 8 = x / 256 := by
  rw [Nat.shiftRight_eq_div_pow]

/-- `merge_bytes` undoes `extract_bytes` on any 16-bit value. -/
theorem extract_merge_of_le (v : Nat) (hv : v ≤ 0xffff) :
    merge_bytes ((v >>> 8) &&& 0xff) (v &&& 0xff) = v := by
  rw [and_255_eq_mod, and_255_eq_mod, shiftRight_8_eq_div]
  have h1 : v / 256 < 256 := by omega
  rw [Nat.mod_eq_of_lt h1, merge_bytes_eq _ _ (Nat.mod_lt _ (by norm_num))]
  omega

/-- Packing boolean-valued flags to the PSW low byte and unpacking it
through the `cc` setter is lossless, and the packed byte fits in 5 bits. -/
theorem flags_int_roundtrip :
    ∀ z, z ≤ 1 → ∀ t, t ≤ 1 → ∀ p, p ≤ 1 → ∀ cy, cy ≤ 1 → ∀ ac, ac ≤ 1 →
      int_of_flags (Flags.mk z t p cy ac) < 32 ∧
      flags_of_int (int_of_flags (Flags.mk z t p cy ac)) = Flags.mk z t p cy ac := by
  decide

/-- A freshly constructed processor state (`State.__init__` with an
all-zero image): every register, flag and counter is zero. -/
def sBase : State :=
  { memory := fun _ => 0, a := 0, b := 0, c := 0, d := 0, e := 0, h := 0, l := 0,
    sp := 0, pc := 0, int_enable := 0, cycles := 0,
    cc := { z := 0, s := 0, p := 0, cy := 0, ac := 0 } }

/-- C4: for every register pair among BC, DE, HL, PSW, every pair value in
0..0xFFFF and every SP position valid for the stack region (so that the
push targets `sp-1`, `sp-2` exist), PUSH followed by POP of the same pair
restores the pair's value and restores SP.  For PSW the state invariants
of spec section 3 (accumulator within 8 bits, flags boolean-valued) are
assumed, since the flags byte is packed and unpacked in transit. -/
theorem c4_push_pop_roundtrip (P : PairName) (s : State)
    (hP : P = .bc ∨ P = .de ∨ P = .hl ∨ P = .psw)
    (hsp : 2 ≤ s.sp)
    (hv : s.getPair P ≤ 0xffff)
    (hpsw : P = .psw → s.a ≤ 0xff ∧ s.cc.z ≤ 1 ∧ s.cc.s ≤ 1 ∧ s.cc.p ≤ 1 ∧
      s.cc.cy ≤ 1 ∧ s.cc.ac ≤ 1) :
    ((s.push P).pop P).getPair P = s.getPair P ∧ ((s.push P).pop P).sp = s.sp := by
  have h1 : s.sp - 2 + 1 = s.sp - 1 := by omega
  have hne : ¬ (s.sp - 1 = s.sp - 2) := by omega
  have h2 : s.sp - 2 + 2 = s.sp := by omega
  rcases hP with rfl | rfl | rfl | rfl
  · simp only [State.getPair] at hv ⊢
    refine ⟨?_, ?_⟩
    · simp only [State.push, State.pop, State.setMem, State.setPair, State.getPair,
        extract_bytes, h1]
      rw [if_neg hne]
      simp only [if_true]
      rw [extract_merge_of_le _ hv, extract_merge_of_le _ hv]
    · simp [State.push, State.pop, State.setMem, State.setPair, h2]
  · simp only [State.getPair] at hv ⊢
    refine ⟨?_, ?_⟩
    · simp only [State.push, State.pop, State.setMem, State.setPair, State.getPair,
        extract_bytes, h1]
      rw [if_neg hne]
      simp only [if_true]
      rw [extract_merge_of_le _ hv, extract_merge_of_le _ hv]
    · simp [State.push, State.pop, State.setMem, State.setPair, h2]
  · simp only [State.getPair] at hv ⊢
    refine ⟨?_, ?_⟩
    · simp only [State.push, State.pop, State.setMem, State.setPair, State.getPair,
        extract_bytes, h1]
      rw [if_neg hne]
      simp only [if_true]
      rw [extract_merge_of_le _ hv, extract_merge_of_le _ hv]
    · simp [State.push, State.pop, State.setMem, State.setPair, h2]
  · obtain ⟨ha, hz, hs, hp, hcy, hac⟩ := hpsw rfl
    have hf := flags_int_roundtrip s.cc.z hz s.cc.s hs s.cc.p hp s.cc.cy hcy s.cc.ac hac
    have hflt : int_of_flags s.cc < 32 := hf.1
    have hfrt : flags_of_int (int_of_flags s.cc) = s.cc := hf.2
    simp only [State.getPair] at hv ⊢
    have hVeq : merge_bytes s.a (int_of_flags s.cc) = 256 * s.a + int_of_flags s.cc :=
      merge_bytes_eq _ _ (by omega)
    have hhi : (merge_bytes s.a (int_of_flags s.cc) >>> 8) &&& 0xff = s.a := by
      rw [shiftRight_8_eq_div, and_255_eq_mod, hVeq]; omega
    have hlo : merge_bytes s.a (int_of_flags s.cc) &&& 0xff = int_of_flags s.cc := by
      rw [and_255_eq_mod, hVeq]; omega
    refine ⟨?_, ?_⟩
    · simp only [State.push, State.pop, State.setMem, State.setPair, State.getPair,
        extract_bytes, h1]
      rw [if_neg hne]
      simp only [if_true]
      rw [extract_merge_of_le _ hv, hhi, hlo, hfrt]
    · simp [State.push, State.pop, State.setMem, State.setPair, h2]

/-- The concrete state for the C4 witness: BC = 0xABCD, SP = 2. -/
def c4State : State := { sBase with b := 0xab, c := 0xcd, sp := 2 }

/-- Witness for C4 at pair BC, value 0xABCD, SP = 2. -/
theorem c4_push_pop_roundtrip_witness :
    ((c4State.push .bc).pop .bc).getPair .bc = c4State.getPair .bc ∧
    ((c4State.push .bc).pop .bc).sp = c4State.sp :=
  c4_push_pop_roundtrip .bc c4State (Or.inl rfl) (by decide) (by decide)
    (fun hx => absurd hx (by decide))

/-- A dispatch result that is not the decode error, whatever the payload. -/
def notDecodeErr (r : Except EmuErr State) : Prop :=
  ∀ k, r ≠ .error (.notImplemented k)

theorem notDecodeErr_trailer (s : State) : notDecodeErr (trailer s) :=
  fun _ h => Except.noConfusion h

theorem notDecodeErr_ok (s : State) : notDecodeErr (.ok s) :=
  fun _ h => Except.noConfusion h

theorem notDecodeErr_te : notDecodeErr (.error .typeError) := by
  intro k h
  injection h with h2
  exact EmuErr.noConfusion h2

theorem notDecodeErr_ne : notDecodeErr (.error .nameError) := by
  intro k h
  injection h with h2
  exact EmuErr.noConfusion h2

theorem notDecodeErr_opDAA (s : State) : notDecodeErr (opDAA s) := by
  simp only [opDAA]
  repeat' split
  all_goals first
    | exact notDecodeErr_trailer _
    | exact notDecodeErr_ne

theorem notDecodeErr_opJNZ (s : State) (a1 a2 : Nat) : notDecodeErr (opJNZ s a1 a2) := by
  simp only [opJNZ]
  repeat' split
  all_goals first
    | exact notDecodeErr_trailer _
    | exact notDecodeErr_ok _

theorem notDecodeErr_opRZ (s : State) : notDecodeErr (opRZ s) := by
  simp only [opRZ]
  repeat' split
  all_goals first
    | exact notDecodeErr_trailer _
    | exact notDecodeErr_ok _

theorem notDecodeErr_opJZ (s : State) (a1 a2 : Nat) : notDecodeErr (opJZ s a1 a2) := by
  simp only [opJZ]
  repeat' split
  all_goals first
    | exact notDecodeErr_trailer _
    | exact notDecodeErr_ok _

theorem notDecodeErr_opJNC (s : State) (a1 a2 : Nat) : notDecodeErr (opJNC s a1 a2) := by
  simp only [opJNC]
  repeat' split
  all_goals first
    | exact notDecodeErr_trailer _
    | exact notDecodeErr_ok _

theorem notDecodeErr_opRC (s : State) : notDecodeErr (opRC s) := by
  simp only [opRC]
  repeat' split
  all_goals first
    | exact notDecodeErr_trailer _
    | exact notDecodeErr_ok _

theorem notDecodeErr_opJC (s : State) (a1 a2 : Nat) : notDecodeErr (opJC s a1 a2) := by
  simp only [opJC]
  repeat' split
  all_goals first
    | exact notDecodeErr_trailer _
    | exact notDecodeErr_ok _

/-- An opcode byte outside the decode table always reaches the final
`else`, raising the decode error whose payload names the opcode. -/
theorem dispatch_unmapped (br : Nat → Nat) (s : State) (op a1 a2 : Nat)
    (h : op ∉ implementedOpcodes) :
    dispatch br s op a1 a2 = .error (.notImplemented op) := by
  simp only [implementedOpcodes, List.mem_cons, List.not_mem_nil, or_false, not_or] at h
  unfold dispatch
  repeat rw [if_neg (by omega)]

/-- No mapped opcode byte can produce the decode error. -/
theorem dispatch_mapped (br : Nat → Nat) (s : State) (op a1 a2 : Nat)
    (h : op ∈ implementedOpcodes) :
    notDecodeErr (dispatch br s op a1 a2) := by
  simp only [implementedOpcodes] at h
  fin_cases h
  all_goals first
    | exact notDecodeErr_trailer _
    | exact notDecodeErr_ok _
    | exact notDecodeErr_te
    | exact notDecodeErr_opDAA _
    | exact notDecodeErr_opJNZ _ _ _
    | exact notDecodeErr_opRZ _
    | exact notDecodeErr_opJZ _ _ _
    | exact notDecodeErr_opJNC _ _ _
    | exact notDecodeErr_opRC _
    | exact notDecodeErr_opJC _ _ _

/-- The all-zero bus oracle used by concrete executions. -/
def bus0 : Nat → Nat := fun _ => 0

/-- Parity flag of a completed dispatch step. -/
def okP : Except EmuErr State → Option Nat
  | .ok s => some s.cc.p
  | .error _ => none

/-- Accumulator of a completed dispatch step. -/
def okA : Except EmuErr State → Option Nat
  | .ok s => some s.a
  | .error _ => none

/-- Input exhibiting C1's defect: ADD B with A = 1, B = 2 (opcode 0x80 at
address 0). -/
def c1State : State :=
  { sBase with a := 1, b := 2, memory := fun i => if i = 0 then 0x80 else 0 }

/-- C1, evaluated at the failing input: ADD B with A = 1, B = 2 produces
the truncated result 3, whose population count 2 is even, so the claim
requires Parity = true; but the code's `parity` tests evenness of the
value itself and stores Parity = false. -/
theorem c1_parity_popcount_mismatch :
    okP (emulate bus0 c1State) = some 0 ∧ popcount 3 % 2 = 0 :=
  ⟨rfl, rfl⟩

/-- Input exhibiting C2's defect: opcode 0x16 (MVI D, D8) at address 0
with immediate 0x42. -/
def c2State : State :=
  { sBase with memory := fun i => if i = 0 then 0x16 else 0x42 }

/-- C2, evaluated at the failing input: opcode 0x16 is an implemented
non-branching opcode with operand length 1, yet its dispatch step raises
TypeError (`state.mvi('d')` lacks the immediate argument) instead of
completing with PC advanced by 2. -/
theorem c2_mvi_d_type_error :
    emulate bus0 c2State = .error .typeError ∧ 0x16 ∈ implementedOpcodes :=
  ⟨rfl, by decide⟩

/-- Input exhibiting C3's defect: RLC (opcode 0x07) with A = 0x80, every
register within its width. -/
def c3State : State :=
  { sBase with a := 0x80, memory := fun i => if i = 0 then 0x07 else 0 }

/-- C3, evaluated at the failing input: RLC writes
`(0x80 << 1) | 0x80 = 0x180` into the 8-bit accumulator without the
`& 0xff` truncation, leaving A out of the 0..255 range. -/
theorem c3_rlc_untruncated :
    okA (emulate bus0 c3State) = some 0x180 ∧ 0xff < 0x180 :=
  ⟨rfl, by decide⟩

/-- Two states that fetch the same unmapped opcode byte 0x08 at two
different addresses. -/
def c7StateA : State := { sBase with memory := fun _ => 0x08 }

/-- The same memory image with PC moved to address 1. -/
def c7StateB : State := { c7StateA with pc := 1 }

/-- C7 counterexample: the decode error carries only the opcode — two
executions fetching the unmapped byte 0x08 at different addresses
propagate the very same error value, so the error cannot report the
address at which the opcode was fetched, contrary to the claim.
(The source raises `NotImplementedError("opcode %02x is not implemented"
% opcode)`, a message rendered from the opcode alone.) -/
theorem c7_counterexample :
    emulate bus0 c7StateA = .error (.notImplemented 0x08) ∧
    emulate bus0 c7StateB = .error (.notImplemented 0x08) ∧
    ¬ c7StateA.pc = c7StateB.pc :=
  ⟨rfl, rfl, by decide⟩

/-- C7 (amended): a dispatch step on an opcode byte with no mapping
propagates the decode error to the caller, reporting the offending opcode
value (but not the fetch address), and produces no successor state; and
no implemented opcode ever raises this decode error. -/
theorem c7_decode_error :
    (∀ (br : Nat → Nat) (s : State), s.memory s.pc ∉ implementedOpcodes →
        emulate br s = .error (.notImplemented (s.memory s.pc))) ∧
    (∀ (br : Nat → Nat) (s : State), s.memory s.pc ∈ implementedOpcodes →
        ∀ k, emulate br s ≠ .error (.notImplemented k)) :=
  ⟨fun br s h => dispatch_unmapped br s _ _ _ h,
   fun br s h k => dispatch_mapped br s _ _ _ h k⟩

/-- A state about to execute the mapped opcode 0x00 (NOP). -/
def c7StateC : State := { sBase with memory := fun _ => 0x00 }

/-- Witness for C7 at the unmapped byte 0x08 and the mapped byte 0x00. -/
theorem c7_decode_error_witness :
    emulate bus0 c7StateA = .error (.notImplemented (c7StateA.memory c7StateA.pc)) ∧
    (∀ k, emulate bus0 c7StateC ≠ .error (.notImplemented k)) :=
  ⟨c7_decode_error.1 bus0 c7StateA (by decide),
   fun k => c7_decode_error.2 bus0 c7StateC (by decide) k⟩

/-- Input exhibiting C8's behaviour: DAA (opcode 0x27) with A = 0 and all
flags clear — the state invariants hold, `lsb = 0`, `hsb = 0`, carry
clear, so the `hsb > 9 or cy` branch is not taken and `ans` is read
unassigned. -/
def c8State : State := { sBase with memory := fun i => if i = 0 then 0x27 else 0 }

/-- C8: there is an accumulator value and flag state satisfying the
invariants (A = 0, all flags false) on which DAA reads its `ans` variable
without it having been assigned, so the step aborts with NameError
instead of completing normally. -/
theorem c8_daa_name_error :
    emulate bus0 c8State = .error .nameError ∧ c8State.a ≤ 0xff :=
  ⟨rfl, by decide⟩

/-- Division by 256 distributes over bitwise or. -/
theorem or_div_256 (a b : Nat) : (a ||| b) / 256 = a / 256 ||| b / 256 := by
  have h2 : ∀ x : Nat, x / 256 = x / 2 / 2 / 2 / 2 / 2 / 2 / 2 / 2 := by intro x; omega
  rw [h2 (a ||| b), h2 a, h2 b]
  simp only [Nat.or_div_two]

/-- High byte of the post-shift register: the inserted byte lands one bit
short of the top byte, so the new high byte is `v >> 1`. -/
theorem c9_high (H v : Nat) (hH : H < 256) (hv : v < 256) :
    ((H ||| (v <<< 7)) >>> 8) &&& 0xff = v >>> 1 := by
  rw [shiftRight_8_eq_div, and_255_eq_mod, or_div_256, Nat.shiftLeft_eq]
  have h1 : H / 256 = 0 := by omega
  have h2 : v * 2 ^ 7 / 256 = v / 2 := by omega
  rw [h1, h2, Nat.zero_or]
  rw [Nat.shiftRight_eq_div_pow]
  omega

/-- Low byte of the post-shift register: the old high byte ORed with the
low bit of the inserted byte moved to bit 7. -/
theorem c9_low (H v : Nat) (hH : H < 256) :
    (H ||| (v <<< 7)) &&& 0xff = H ||| ((v &&& 1) <<< 7) := by
  have e1 : (H ||| (v <<< 7)) &&& 0xff = (H &&& 0xff) ||| ((v <<< 7) &&& 0xff) := by
    rw [Nat.and_comm (H ||| (v <<< 7)) 0xff, Nat.and_or_distrib_left,
        Nat.and_comm 0xff H, Nat.and_comm 0xff (v <<< 7)]
  rw [e1, and_255_eq_mod H, Nat.mod_eq_of_lt hH, and_255_eq_mod, Nat.shiftLeft_eq,
      Nat.shiftLeft_eq, Nat.and_one_is_mod]
  have h3 : v * 2 ^ 7 % 256 = v % 2 * 2 ^ 7 := by omega
  rw [h3]

/-- A shift register holding 0x1200 with read offset 0. -/
def c9Sr : ShiftRegister := { register := 0x1200, offset := 0 }

/-- C9 counterexample: shifting 0xFF into a register holding 0x1200 gives
register `(0x1200 >> 8) | (0xFF << 7) = 0x7F92`; the subsequent offset-0
read returns 0x92, not the previous high byte 0x12, and the new high byte
is 0x7F, not the inserted byte 0xFF. -/
theorem c9_counterexample :
    (c9Sr.shift 0xff).get_register ≠ (c9Sr.register >>> 8) &&& 0xff ∧
    ((c9Sr.shift 0xff).register >>> 8) &&& 0xff ≠ 0xff := by
  constructor <;> decide

/-- C9 (amended): the shift operation drops the low byte and ORs the new
byte shifted left by only 7 bits, so for a 16-bit register and byte `v`
the new high byte is `v >> 1` (not `v`), and a subsequent offset-0 read
returns the previous high byte ORed with bit 0 of `v` moved to bit 7
(not the previous high byte alone). -/
theorem c9_shift_semantics (sr : ShiftRegister) (v : Nat)
    (hr : sr.register ≤ 0xffff) (hv : v ≤ 0xff) (hoff : sr.offset = 0) :
    ((sr.shift v).register >>> 8) &&& 0xff = v >>> 1 ∧
    (sr.shift v).get_register = ((sr.register >>> 8) &&& 0xff) ||| ((v &&& 1) <<< 7) := by
  have hH : sr.register >>> 8 < 256 := by rw [shiftRight_8_eq_div]; omega
  constructor
  · exact c9_high _ _ hH (by omega)
  · have hHm : (sr.register >>> 8) &&& 0xff = sr.register >>> 8 := by
      rw [and_255_eq_mod, Nat.mod_eq_of_lt hH]
    show ((sr.register >>> 8 ||| (v <<< 7)) >>> sr.offset) &&& 0xff = _
    rw [hoff, Nat.shiftRight_zero, hHm]
    exact c9_low _ _ hH

/-- A shift register holding 0x1234 with read offset 0. -/
def c9SrW : ShiftRegister := { register := 0x1234, offset := 0 }

/-- Witness for C9 at register 0x1234, inserted byte 0xAB, offset 0. -/
theorem c9_shift_semantics_witness :
    ((c9SrW.shift 0xab).register >>> 8) &&& 0xff = 0xab >>> 1 ∧
    (c9SrW.shift 0xab).get_register = ((c9SrW.register >>> 8) &&& 0xff) ||| ((0xab &&& 1) <<< 7) :=
  c9_shift_semantics c9SrW 0xab (by decide) (by decide) rfl

/-- A state whose Carry flag is set, with B = 0. -/
def c5State : State := { sBase with cc := { z := 0, s := 0, p := 0, cy := 1, ac := 0 } }

/-- C5 counterexample: INR B on a state with CY = 1 and B = 0 recomputes
CY through `calc_flags` and clears it, so the Carry flag is not left
unchanged. -/
theorem c5_counterexample :
    (c5State.inr .b8).cc.cy = 0 ∧ c5State.cc.cy = 1 := ⟨rfl, rfl⟩

/-- C5 (amended): INR, DCR, INX and DCX recompute the Carry flag along
with Z/S/P through the shared `calc_flags` routine: CY is set to whether
the untruncated result exceeds the operand width's maximum (0xFF for the
8-bit forms, 0xFFFF for the pair forms), so it is preserved only when it
already had that value.  (INX/DCX are stated for the pairs the dispatcher
uses them with; `inr` never receives `m`.) -/
theorem c5_incdec_carry :
    (∀ (s : State) (r : Reg8), r ≠ .m8 →
      (s.inr r).cc.cy = b2i (decide ((s.getReg8 r : Int) + 1 > 0xff))) ∧
    (∀ (s : State) (r : Reg8),
      (s.dcr r).cc.cy = b2i (decide ((s.getReg8 r : Int) - 1 > 0xff))) ∧
    (∀ (s : State) (P : PairName), P = .bc ∨ P = .de ∨ P = .hl →
      (s.inx P).cc.cy = b2i (decide ((s.getPair P : Int) + 1 > 0xffff)) ∧
      (s.dcx P).cc.cy = b2i (decide ((s.getPair P : Int) - 1 > 0xffff))) := by
  refine ⟨fun s r hr => ?_, fun s r => ?_, fun s P hP => ⟨?_, ?_⟩⟩
  · cases r <;> rfl
  · cases r <;> rfl
  · rcases hP with rfl | rfl | rfl <;> rfl
  · rcases hP with rfl | rfl | rfl <;> rfl

/-- Witness for C5 (amended) at INR B on `c5State`. -/
theorem c5_incdec_carry_witness :
    (c5State.inr .b8).cc.cy = b2i (decide ((c5State.getReg8 .b8 : Int) + 1 > 0xff)) :=
  c5_incdec_carry.1 c5State .b8 (by decide)

/-- C6 counterexample: DCR B on B = 0 stores `(0 - 1) & 0xff = 255`
(Python's mask of a negative int is reduction mod 256), not the
`(0 - 1) mod 255 = 254` that the claimed modulo-255 truncation predicts. -/
theorem c6_counterexample :
    (sBase.dcr .b8).b ≠ (((sBase.b : Int) - 1).emod 255).toNat := by decide

/-- C6 (amended): DCR stores the value minus one truncated modulo 256
(the `& 0xff` mask), in full agreement with INR's modulo-256 truncation;
in particular decrementing 0 stores 255. -/
theorem c6_dcr_mod256 :
    (∀ (s : State) (r : Reg8),
      (s.dcr r).getReg8 r = pymod ((s.getReg8 r : Int) - 1) 256) ∧
    (∀ (s : State) (r : Reg8), r ≠ .m8 →
      (s.inr r).getReg8 r = pymod ((s.getReg8 r : Int) + 1) 256) := by
  refine ⟨fun s r => ?_, fun s r hr => ?_⟩
  · cases r <;> simp [State.dcr, State.getReg8, State.setReg8, State.setMem, State.hl16]
  · cases r <;> simp [State.inr, State.getReg8, State.setReg8, State.setMem, State.hl16]

/-- Witness for C6 (amended) at INR B and DCR B on the zero state. -/
theorem c6_dcr_mod256_witness :
    (sBase.inr .b8).getReg8 .b8 = pymod ((sBase.getReg8 .b8 : Int) + 1) 256 :=
  c6_dcr_mod256.2 sBase .b8 (by decide)

/-- C10: the player-2 start event ORs 0x02 into the *player-1* register
and leaves the player-2 register (as returned by `get_p2`) unchanged;
every toggle ORs a fixed single-bit mask into exactly one register and is
idempotent. -/
theorem c10_controller_toggles (c : Controller) :
    (c.start_p2.get_p2 = c.get_p2 ∧ c.start_p2.p1_reg = c.p1_reg ||| 0x02) ∧
    (c.start_p1.p2_reg = c.p2_reg ∧ c.start_p1.p1_reg = c.p1_reg ||| 0x04) ∧
    (c.mv_left_p1.p2_reg = c.p2_reg ∧ c.mv_left_p1.p1_reg = c.p1_reg ||| 0x20) ∧
    (c.mv_left_p2.p1_reg = c.p1_reg ∧ c.mv_left_p2.p2_reg = c.p2_reg ||| 0x20) ∧
    (c.mv_right_p1.p2_reg = c.p2_reg ∧ c.mv_right_p1.p1_reg = c.p1_reg ||| 0x40) ∧
    (c.mv_right_p2.p1_reg = c.p1_reg ∧ c.mv_right_p2.p2_reg = c.p2_reg ||| 0x40) ∧
    (c.shoot_p1.p2_reg = c.p2_reg ∧ c.shoot_p1.p1_reg = c.p1_reg ||| 0x10) ∧
    (c.shoot_p2.p1_reg = c.p1_reg ∧ c.shoot_p2.p2_reg = c.p2_reg ||| 0x10) ∧
    (c.add_credit.p2_reg = c.p2_reg ∧ c.add_credit.p1_reg = c.p1_reg ||| 0x01) ∧
    (c.start_p1.start_p1 = c.start_p1 ∧ c.start_p2.start_p2 = c.start_p2 ∧
     c.mv_left_p1.mv_left_p1 = c.mv_left_p1 ∧ c.mv_left_p2.mv_left_p2 = c.mv_left_p2 ∧
     c.mv_right_p1.mv_right_p1 = c.mv_right_p1 ∧ c.mv_right_p2.mv_right_p2 = c.mv_right_p2 ∧
     c.shoot_p1.shoot_p1 = c.shoot_p1 ∧ c.shoot_p2.shoot_p2 = c.shoot_p2 ∧
     c.add_credit.add_credit = c.add_credit) := by
  simp [Controller.start_p1, Controller.start_p2, Controller.get_p2,
        Controller.mv_left_p1, Controller.mv_left_p2, Controller.mv_right_p1,
        Controller.mv_right_p2, Controller.shoot_p1, Controller.shoot_p2,
        Controller.add_credit, Nat.or_assoc, Nat.or_self]
